import Mathlib

/-!
Shallow embedding of the tudat one-way range observation model and its
observation-partial scaling, following:
  - Tudat/Astrodynamics/OrbitDetermination/ObservationPartials/oneWayRangePartial.cpp
  - Tudat/Astrodynamics/ObservationModels/oneWayRangeObservationModel.h
Machine doubles are modelled as real numbers; Eigen row/column 3-vectors as a
three-component structure; C++ exceptions as `Except String`.
-/

namespace tudat

noncomputable section

/-- Speed of light in vacuum, from `physical_constants::SPEED_OF_LIGHT` (m/s). -/
def SPEED_OF_LIGHT : ℝ := 299792458

/-- Modelled from the spec: `LinkEndType` — the enumerated signal-interaction
role of a link end, `{transmitter, retransmitter(s), receiver}`; its declaring
header is not part of the surveyed sources. -/
inductive LinkEndType where
  | transmitter
  | retransmitter
  | receiver
  deriving DecidableEq, Repr

/-- Numeric value of the role, as printed by `boost::lexical_cast` into error
messages (transmitter first, receiver last, matching the declared order). -/
def LinkEndType.toIdx : LinkEndType → Nat
  | .transmitter => 0
  | .retransmitter => 1
  | .receiver => 2

/-- A 3-component vector (an `Eigen::Vector3d` / 1×3 row `Eigen::Matrix`). -/
@[ext]
structure Vector3 where
  x : ℝ
  y : ℝ
  z : ℝ

namespace Vector3

instance : Inhabited Vector3 := ⟨⟨0, 0, 0⟩⟩

instance : Add Vector3 := ⟨fun a b => ⟨a.x + b.x, a.y + b.y, a.z + b.z⟩⟩

instance : Sub Vector3 := ⟨fun a b => ⟨a.x - b.x, a.y - b.y, a.z - b.z⟩⟩

instance : Neg Vector3 := ⟨fun a => ⟨-a.x, -a.y, -a.z⟩⟩

instance : SMul ℝ Vector3 := ⟨fun c a => ⟨c * a.x, c * a.y, c * a.z⟩⟩

/-- Componentwise division by a scalar (`Eigen`'s `vector / scalar`). -/
def divScalar (a : Vector3) (c : ℝ) : Vector3 := ⟨a.x / c, a.y / c, a.z / c⟩

/-- Dot product. -/
def dot (a b : Vector3) : ℝ := a.x * b.x + a.y * b.y + a.z * b.z

/-- Euclidean norm (`Eigen`'s `.norm()`). -/
def norm (a : Vector3) : ℝ := Real.sqrt (a.x ^ 2 + a.y ^ 2 + a.z ^ 2)

end Vector3

/-- A 6-component kinematic state (`basic_mathematics::Vector6d`): position in
components 0–2 (`segment(0, 3)`), velocity in components 3–5 (`segment(3, 3)`). -/
structure Vector6 where
  pos : Vector3
  vel : Vector3

instance : Inhabited Vector6 := ⟨⟨default, default⟩⟩

/-- The state of a `OneWayRangeScaling` object: the four member variables set by
`OneWayRangeScaling::update`. The 1×3 row matrices are `Vector3` values. -/
structure OneWayRangeScaling where
  receiverReferenceScalingFactor_ : Vector3
  transmitterReferenceScalingFactor_ : Vector3
  receiverReferenceLightTimeCorrectionScaling_ : ℝ
  transmitterReferenceLightTimeCorrectionScaling_ : ℝ

namespace OneWayRangeScaling

/-- `OneWayRangeScaling::update` (oneWayRangePartial.cpp lines 11–27): recompute
all four members from the given link-end states; `times` and `fixedLinkEnd` are
taken but not read. -/
def update (_s : OneWayRangeScaling) (linkEndStates : List Vector6)
    (_times : List ℝ) (_fixedLinkEnd : LinkEndType) : OneWayRangeScaling :=
  let rangeVector : Vector3 :=
    (linkEndStates.getD 1 default).pos - (linkEndStates.getD 0 default).pos
  let rangeVectorNormalized : Vector3 := rangeVector.divScalar rangeVector.norm
  let receiverReferenceLightTimeCorrectionScaling : ℝ :=
    1 / (1 - rangeVectorNormalized.dot (linkEndStates.getD 0 default).vel / SPEED_OF_LIGHT)
  let transmitterReferenceLightTimeCorrectionScaling : ℝ :=
    1 / (1 - rangeVectorNormalized.dot (linkEndStates.getD 1 default).vel / SPEED_OF_LIGHT)
  { receiverReferenceScalingFactor_ :=
      receiverReferenceLightTimeCorrectionScaling • rangeVectorNormalized
    transmitterReferenceScalingFactor_ :=
      transmitterReferenceLightTimeCorrectionScaling • rangeVectorNormalized
    receiverReferenceLightTimeCorrectionScaling_ := receiverReferenceLightTimeCorrectionScaling
    transmitterReferenceLightTimeCorrectionScaling_ := transmitterReferenceLightTimeCorrectionScaling }

/-- `OneWayRangeScaling::getScalingFactor` (oneWayRangePartial.cpp lines 29–55):
select the member for the reference-time link end (throwing if it is neither
transmitter nor receiver), then negate when the differentiated link end is the
receiver. -/
def getScalingFactor (s : OneWayRangeScaling) (linkEndType : LinkEndType)
    (referenceTimeLinkEnd : LinkEndType) : Except String Vector3 := do
  let scaling ←
    if referenceTimeLinkEnd = LinkEndType.transmitter then
      pure s.transmitterReferenceScalingFactor_
    else if referenceTimeLinkEnd = LinkEndType.receiver then
      pure s.receiverReferenceScalingFactor_
    else
      throw ("Error when getting one-way range scaling , link end type: " ++
        toString referenceTimeLinkEnd.toIdx ++ " not compatible.")
  let scaling :=
    if linkEndType = LinkEndType.receiver then (-1 : ℝ) • scaling else scaling
  pure scaling

/-- `OneWayRangeScaling::getLightTimePartialScalingFactor` (oneWayRangePartial.cpp
lines 57–77): select the scalar member for the reference-time link end, throwing
if it is neither transmitter nor receiver. -/
def getLightTimePartialScalingFactor (s : OneWayRangeScaling)
    (referenceTimeLinkEnd : LinkEndType) : Except String ℝ :=
  if referenceTimeLinkEnd = LinkEndType.transmitter then
    pure s.transmitterReferenceLightTimeCorrectionScaling_
  else if referenceTimeLinkEnd = LinkEndType.receiver then
    pure s.receiverReferenceLightTimeCorrectionScaling_
  else
    throw ("Error when getting one-way range light-time correction scaling , link end type: " ++
      toString referenceTimeLinkEnd.toIdx ++ " not compatible.")

end OneWayRangeScaling

/-- A 1×`n` row matrix (`Eigen::Matrix< double, 1, Eigen::Dynamic >`): one
observation-partial entry's matrix, `n` the parameter size. -/
def RowVec (n : ℕ) := Fin n → ℝ

instance : Inhabited (RowVec n) := ⟨fun _ => 0⟩

instance : SMul ℝ (RowVec n) := ⟨fun c r => fun j => c * r j⟩

/-- A 3×`n` matrix: the raw position partial returned by a
`CartesianStatePartial::calculatePartial` source. -/
def PosPartialMatrix (n : ℕ) := Fin 3 → Fin n → ℝ

/-- Row-vector (1×3) times 3×`n` matrix, as in
`scalingFactor * positionPartial`. -/
def rowTimesMatrix (v : Vector3) (m : PosPartialMatrix n) : RowVec n :=
  fun j => v.x * m 0 j + v.y * m 1 j + v.z * m 2 j

/-- Sequential effectful map over a list, propagating the first thrown error —
the shallow embedding of a C++ loop whose body may `throw` while it `push_back`s
one result per iteration. -/
def mapExcept (f : α → Except String β) : List α → Except String (List β)
  | [] => Except.ok []
  | a :: l => do
    let b ← f a
    let bs ← mapExcept f l
    Except.ok (b :: bs)

/-- The state of a `OneWayRangePartial` object, of parameter size `n`: the
scaler shared with other partials, the per-link-end position-partial sources
(keyed by link-end role), and the attached light-time-correction partial
functions `(states, times) ↦ (partial matrix, evaluation time)`. -/
structure OneWayRangePartial (n : ℕ) where
  oneWayRangeScaler_ : OneWayRangeScaling
  positionPartialList_ : List (LinkEndType × (Vector6 → ℝ → PosPartialMatrix n))
  lighTimeCorrectionPartialsFunctions_ : List (List Vector6 → List ℝ → RowVec n × ℝ)

namespace OneWayRangePartial

/-- One iteration of the first loop of `OneWayRangePartial::calculatePartial`
(oneWayRangePartial.cpp lines 90–109): pick the state/time of the link end the
position-partial source is keyed to, and left-multiply the raw partial by the
scaling factor for (that link end, fixed link end). When the key is neither
transmitter nor receiver the C++ reads `currentState`/`currentTime`
uninitialized or stale; that unspecified value is modelled by `default`. -/
def positionPartialEntry (scaler : OneWayRangeScaling)
    (linkEndOfFixedTime : LinkEndType) (states : List Vector6) (times : List ℝ)
    (pp : LinkEndType × (Vector6 → ℝ → PosPartialMatrix n)) :
    Except String (RowVec n × ℝ) := do
  let currentState : Vector6 :=
    if pp.1 = LinkEndType.transmitter then states.getD 0 default
    else if pp.1 = LinkEndType.receiver then states.getD 1 default
    else default
  let currentTime : ℝ :=
    if pp.1 = LinkEndType.transmitter then times.getD 0 0
    else if pp.1 = LinkEndType.receiver then times.getD 1 0
    else 0
  let scaling ← scaler.getScalingFactor pp.1 linkEndOfFixedTime
  Except.ok (rowTimesMatrix scaling (pp.2 currentState currentTime), currentTime)

/-- One iteration of the second loop of `OneWayRangePartial::calculatePartial`
(oneWayRangePartial.cpp lines 111–116): evaluate a light-time-correction
partial function on the full state/time sequence and multiply its matrix by
−1 · c · (light-time partial scaling factor); the entry's time is kept. -/
def correctionPartialEntry (scaler : OneWayRangeScaling)
    (linkEndOfFixedTime : LinkEndType) (states : List Vector6) (times : List ℝ)
    (f : List Vector6 → List ℝ → RowVec n × ℝ) :
    Except String (RowVec n × ℝ) := do
  let entry := f states times
  let scaling ← scaler.getLightTimePartialScalingFactor linkEndOfFixedTime
  Except.ok (((-1 : ℝ) * SPEED_OF_LIGHT * scaling) • entry.1, entry.2)

/-- `OneWayRangePartial::calculatePartial` (oneWayRangePartial.cpp lines
80–119): the position-partial entries followed by the light-time-correction
entries. -/
def calculatePartial (p : OneWayRangePartial n) (states : List Vector6)
    (times : List ℝ) (linkEndOfFixedTime : LinkEndType) :
    Except String (List (RowVec n × ℝ)) := do
  let positionEntries ←
    mapExcept (positionPartialEntry p.oneWayRangeScaler_ linkEndOfFixedTime states times)
      p.positionPartialList_
  let correctionEntries ←
    mapExcept (correctionPartialEntry p.oneWayRangeScaler_ linkEndOfFixedTime states times)
      p.lighTimeCorrectionPartialsFunctions_
  Except.ok (positionEntries ++ correctionEntries)

end OneWayRangePartial

/-- The light-time calculator consumed by the observation model; its solver is
external to the surveyed sources, so it is kept abstract as a pair of functions:
`calculateLightTime time isTimeAtReception` returns the light time, and
`calculateLightTimeWithLinkEndsStates time isTimeAtReception` returns
(light time, receiver state, transmitter state) — the C++ writes the two states
through its first two reference parameters, in that order. -/
structure LightTimeCalculator where
  calculateLightTime : ℝ → Bool → ℝ
  calculateLightTimeWithLinkEndsStates : ℝ → Bool → ℝ × Vector6 × Vector6

/-- The one-way range observation model (oneWayRangeObservationModel.h): holds
its light-time calculator. -/
structure OneWayRangeObservationModel where
  lightTimeCalculator_ : LightTimeCalculator

namespace OneWayRangeObservationModel

/-- `OneWayRangeObservationModel::computeIdealObservations`
(oneWayRangeObservationModel.h lines 75–100): light time at the given anchor,
multiplied by the speed of light; any other anchor role throws. -/
def computeIdealObservations (m : OneWayRangeObservationModel) (time : ℝ)
    (linkEndAssociatedWithTime : LinkEndType) : Except String ℝ :=
  if linkEndAssociatedWithTime = LinkEndType.receiver then
    Except.ok (m.lightTimeCalculator_.calculateLightTime time true * SPEED_OF_LIGHT)
  else if linkEndAssociatedWithTime = LinkEndType.transmitter then
    Except.ok (m.lightTimeCalculator_.calculateLightTime time false * SPEED_OF_LIGHT)
  else
    throw "Error when calculating one way range observation, link end is not transmitter or receiver"

/-- `OneWayRangeObservationModel::computeIdealObservationsWithLinkEndData`
(oneWayRangeObservationModel.h lines 117–159): solve the light time anchored at
the given link end, derive the two epoch times (the light time is applied
before conversion to range), scale the observable by the speed of light, and
append [transmission, reception] to `linkEndTimes` and
[transmitter state, receiver state] to `linkEndStates` (the C++ `push_back`s
onto the caller's vectors). Returns (observable, times, states). -/
def computeIdealObservationsWithLinkEndData (m : OneWayRangeObservationModel)
    (time : ℝ) (linkEndAssociatedWithTime : LinkEndType)
    (linkEndTimes : List ℝ) (linkEndStates : List Vector6) :
    Except String (ℝ × List ℝ × List Vector6) :=
  match linkEndAssociatedWithTime with
  | LinkEndType.receiver =>
    let r := m.lightTimeCalculator_.calculateLightTimeWithLinkEndsStates time true
    let observation := r.1
    let receiverState := r.2.1
    let transmitterState := r.2.2
    let transmissionTime := time - observation
    let receptionTime := time
    Except.ok (observation * SPEED_OF_LIGHT,
      linkEndTimes ++ [transmissionTime, receptionTime],
      linkEndStates ++ [transmitterState, receiverState])
  | LinkEndType.transmitter =>
    let r := m.lightTimeCalculator_.calculateLightTimeWithLinkEndsStates time false
    let observation := r.1
    let receiverState := r.2.1
    let transmitterState := r.2.2
    let transmissionTime := time
    let receptionTime := time + observation
    Except.ok (observation * SPEED_OF_LIGHT,
      linkEndTimes ++ [transmissionTime, receptionTime],
      linkEndStates ++ [transmitterState, receiverState])
  | other =>
    throw ("Error, cannot have link end type: " ++ toString other.toIdx ++
      "for one-way range")

end OneWayRangeObservationModel

/-- A concrete light-time calculator (unit light time, zero endpoint states)
used to instantiate the theorems at a concrete input. -/
def exampleLightTimeCalculator : LightTimeCalculator :=
  ⟨fun _ _ => 1, fun _ _ => (1, default, default)⟩

/-- A concrete one-way range observation model over
`exampleLightTimeCalculator`. -/
def exampleObservationModel : OneWayRangeObservationModel :=
  ⟨exampleLightTimeCalculator⟩

/-- A concrete scaling state used to instantiate the theorems. -/
def exampleScaling : OneWayRangeScaling := ⟨⟨1, 0, 0⟩, ⟨1, 0, 0⟩, 1, 1⟩

/-- A concrete one-way range partial (no position-partial sources, one
light-time-correction partial source) used to instantiate the theorems. -/
def exampleOneWayRangePartial : OneWayRangePartial 1 :=
  ⟨exampleScaling, [], [fun _ _ => (fun _ => 2, 5)]⟩

/-- The spec's formula: the unit line-of-sight vector ŝ from the transmitter's
position (`s0`) to the receiver's position (`s1`). -/
def unitLineOfSight (s0 s1 : Vector6) : Vector3 :=
  (1 / (s1.pos - s0.pos).norm) • (s1.pos - s0.pos)

/-- The spec's formula: the relativistic transit-time-rate factor
1/(1 − v·ŝ/c) for the endpoint velocity `v`. -/
def transitRateFactor (s0 s1 : Vector6) (v : Vector3) : ℝ :=
  1 / (1 - (unitLineOfSight s0 s1).dot v / SPEED_OF_LIGHT)

end

/-! ## Theorems -/

noncomputable section

theorem Vector3.smul_def (c : ℝ) (a : Vector3) : c • a = ⟨c * a.x, c * a.y, c * a.z⟩ := rfl

theorem Vector3.sub_def (a b : Vector3) : a - b = ⟨a.x - b.x, a.y - b.y, a.z - b.z⟩ := rfl

theorem Vector3.neg_def (a : Vector3) : -a = ⟨-a.x, -a.y, -a.z⟩ := rfl


theorem Vector3.divScalar_eq_smul (a : Vector3) (c : ℝ) :
    a.divScalar c = (1 / c) • a := by
  ext <;> simp [Vector3.divScalar, Vector3.smul_def, div_eq_mul_inv, mul_comm]

theorem Vector3.one_smul_eq (a : Vector3) : (1 : ℝ) • a = a := by
  ext <;> simp [Vector3.smul_def]

theorem Vector3.neg_one_smul_eq (a : Vector3) : (-1 : ℝ) • a = -a := by
  ext <;> simp [Vector3.smul_def, Vector3.neg_def]

theorem mapExcept_ok_of_forall {f : α → Except String β} {g : α → β}
    (l : List α) (h : ∀ a, f a = Except.ok (g a)) :
    mapExcept f l = Except.ok (l.map g) := by
  induction l with
  | nil => rfl
  | cons a l ih => simp [mapExcept, h a, ih, List.map_cons, Bind.bind, Except.bind]

namespace OneWayRangeScaling

theorem getScalingFactor_transmitterRef (s : OneWayRangeScaling) (lt : LinkEndType) :
    s.getScalingFactor lt LinkEndType.transmitter =
      Except.ok ((if lt = LinkEndType.receiver then (-1 : ℝ) else 1) •
        s.transmitterReferenceScalingFactor_) := by
  cases lt <;> simp [getScalingFactor, Vector3.one_smul_eq, pure, Except.pure, Bind.bind, Except.bind]

theorem getScalingFactor_receiverRef (s : OneWayRangeScaling) (lt : LinkEndType) :
    s.getScalingFactor lt LinkEndType.receiver =
      Except.ok ((if lt = LinkEndType.receiver then (-1 : ℝ) else 1) •
        s.receiverReferenceScalingFactor_) := by
  cases lt <;> simp [getScalingFactor, Vector3.one_smul_eq, pure, Except.pure, Bind.bind, Except.bind]

theorem update_receiverFactor (s : OneWayRangeScaling) (s0 s1 : Vector6)
    (times : List ℝ) (fixedLinkEnd : LinkEndType) :
    (s.update [s0, s1] times fixedLinkEnd).receiverReferenceScalingFactor_ =
      transitRateFactor s0 s1 s0.vel • unitLineOfSight s0 s1 := by
  simp [update, transitRateFactor, unitLineOfSight, Vector3.divScalar_eq_smul, List.getD]

theorem update_transmitterFactor (s : OneWayRangeScaling) (s0 s1 : Vector6)
    (times : List ℝ) (fixedLinkEnd : LinkEndType) :
    (s.update [s0, s1] times fixedLinkEnd).transmitterReferenceScalingFactor_ =
      transitRateFactor s0 s1 s1.vel • unitLineOfSight s0 s1 := by
  simp [update, transitRateFactor, unitLineOfSight, Vector3.divScalar_eq_smul, List.getD]

theorem getLightTimePartialScalingFactor_transmitterRef (s : OneWayRangeScaling) :
    s.getLightTimePartialScalingFactor LinkEndType.transmitter =
      Except.ok s.transmitterReferenceLightTimeCorrectionScaling_ := by
  simp [getLightTimePartialScalingFactor, pure, Except.pure]

theorem getLightTimePartialScalingFactor_receiverRef (s : OneWayRangeScaling) :
    s.getLightTimePartialScalingFactor LinkEndType.receiver =
      Except.ok s.receiverReferenceLightTimeCorrectionScaling_ := by
  simp [getLightTimePartialScalingFactor, pure, Except.pure]

end OneWayRangeScaling

theorem getD_map_get {α β : Type _} {l : List α} {g : α → β} {i : ℕ}
    (hi : i < l.length) (d : β) :
    (l.map g).getD i d = g (l.get ⟨i, hi⟩) := by
  rw [List.getD_eq_getElem _ _ (by simpa using hi)]
  simp

theorem mapExcept_ok_exists {f : α → Except String β} (l : List α)
    (h : ∀ a, ∃ b, f a = Except.ok b) :
    ∃ bs, mapExcept f l = Except.ok bs ∧ bs.length = l.length := by
  induction l with
  | nil => exact ⟨[], rfl, rfl⟩
  | cons a l ih =>
    obtain ⟨b, hb⟩ := h a
    obtain ⟨bs, hbs, hlen⟩ := ih
    exact ⟨b :: bs, by simp [mapExcept, hb, hbs, Bind.bind, Except.bind],
      by simp [hlen]⟩

namespace OneWayRangePartial

theorem positionPartialEntry_ok_of_valid {n : ℕ} (scaler : OneWayRangeScaling)
    (states : List Vector6) (times : List ℝ)
    (pp : LinkEndType × (Vector6 → ℝ → PosPartialMatrix n)) (fixed : LinkEndType)
    (h : fixed = LinkEndType.transmitter ∨ fixed = LinkEndType.receiver) :
    ∃ b, positionPartialEntry scaler fixed states times pp = Except.ok b := by
  rcases h with h | h <;> subst h
  · exact ⟨_, by simp only [positionPartialEntry,
      OneWayRangeScaling.getScalingFactor_transmitterRef]; rfl⟩
  · exact ⟨_, by simp only [positionPartialEntry,
      OneWayRangeScaling.getScalingFactor_receiverRef]; rfl⟩

theorem correctionPartialEntry_ok {n : ℕ} (scaler : OneWayRangeScaling)
    (fixed : LinkEndType) (states : List Vector6) (times : List ℝ)
    (f : List Vector6 → List ℝ → RowVec n × ℝ) (scal : ℝ)
    (hscal : scaler.getLightTimePartialScalingFactor fixed = Except.ok scal) :
    correctionPartialEntry scaler fixed states times f =
      Except.ok (((-1 : ℝ) * SPEED_OF_LIGHT * scal) • (f states times).1,
        (f states times).2) := by
  simp only [correctionPartialEntry, hscal]
  rfl

end OneWayRangePartial

/-- Claim C2: for a fixed-time link end that is transmitter or receiver,
`OneWayRangePartial::calculatePartial` succeeds, and every entry contributed by
a light-time-correction partial source — these sit after the position-partial
entries — equals the raw correction partial evaluated on the full state/time
sequence, multiplied by −1 · (speed of light) ·
`getLightTimePartialScalingFactor(fixedLinkEnd)`, with the raw entry's
evaluation time kept. -/
theorem oneWayRangePartial_calculatePartial_correction_scaling {n : ℕ}
    (p : OneWayRangePartial n) (states : List Vector6) (times : List ℝ)
    (fixed : LinkEndType)
    (h : fixed = LinkEndType.transmitter ∨ fixed = LinkEndType.receiver) :
    ∃ entries scal,
      p.calculatePartial states times fixed = Except.ok entries ∧
      p.oneWayRangeScaler_.getLightTimePartialScalingFactor fixed = Except.ok scal ∧
      entries.length = p.positionPartialList_.length +
        p.lighTimeCorrectionPartialsFunctions_.length ∧
      ∀ i (hi : i < p.lighTimeCorrectionPartialsFunctions_.length),
        entries.getD (p.positionPartialList_.length + i) default =
          (((-1 : ℝ) * SPEED_OF_LIGHT * scal) •
            (p.lighTimeCorrectionPartialsFunctions_.get ⟨i, hi⟩ states times).1,
           (p.lighTimeCorrectionPartialsFunctions_.get ⟨i, hi⟩ states times).2) := by
  have hscal : ∃ scal,
      p.oneWayRangeScaler_.getLightTimePartialScalingFactor fixed = Except.ok scal := by
    rcases h with h | h <;> subst h
    · exact ⟨_, OneWayRangeScaling.getLightTimePartialScalingFactor_transmitterRef _⟩
    · exact ⟨_, OneWayRangeScaling.getLightTimePartialScalingFactor_receiverRef _⟩
  obtain ⟨scal, hscal⟩ := hscal
  obtain ⟨posEntries, hposMap, hposLen⟩ :=
    mapExcept_ok_exists p.positionPartialList_
      (fun pp => OneWayRangePartial.positionPartialEntry_ok_of_valid
        p.oneWayRangeScaler_ states times pp fixed h)
  have hltMap :
      mapExcept (OneWayRangePartial.correctionPartialEntry p.oneWayRangeScaler_
          fixed states times) p.lighTimeCorrectionPartialsFunctions_ =
        Except.ok (p.lighTimeCorrectionPartialsFunctions_.map
          (fun f => (((-1 : ℝ) * SPEED_OF_LIGHT * scal) • (f states times).1,
            (f states times).2))) :=
    mapExcept_ok_of_forall _
      (fun f => OneWayRangePartial.correctionPartialEntry_ok
        p.oneWayRangeScaler_ fixed states times f scal hscal)
  refine ⟨posEntries ++ p.lighTimeCorrectionPartialsFunctions_.map
      (fun f => (((-1 : ℝ) * SPEED_OF_LIGHT * scal) • (f states times).1,
        (f states times).2)), scal, ?_, hscal, ?_, ?_⟩
  · simp [OneWayRangePartial.calculatePartial, hposMap, hltMap, Bind.bind, Except.bind]
  · simp [hposLen]
  · intro i hi
    rw [List.getD_append_right _ _ _ _ (by omega)]
    have hidx : p.positionPartialList_.length + i - posEntries.length = i := by
      omega
    rw [hidx, getD_map_get hi]

/-- Claim C1: after `OneWayRangeScaling::update` with link-end states ordered
[transmitter `s0`, receiver `s1`], the receiver-fixed scaling factor is the
unit line-of-sight row vector (transmitter position → receiver position) times
1/(1 − v·ŝ/c) with v the transmitter's velocity, the transmitter-fixed factor
is the same with the receiver's velocity, and `getScalingFactor` negates the
selected factor exactly when the differentiated link end is the receiver. -/
theorem oneWayRangeScaling_update_factors_spec (s : OneWayRangeScaling)
    (s0 s1 : Vector6) (times : List ℝ) (fixedLinkEnd lt : LinkEndType) :
    (s.update [s0, s1] times fixedLinkEnd).receiverReferenceScalingFactor_ =
      transitRateFactor s0 s1 s0.vel • unitLineOfSight s0 s1 ∧
    (s.update [s0, s1] times fixedLinkEnd).transmitterReferenceScalingFactor_ =
      transitRateFactor s0 s1 s1.vel • unitLineOfSight s0 s1 ∧
    (s.update [s0, s1] times fixedLinkEnd).getScalingFactor lt LinkEndType.receiver =
      Except.ok ((if lt = LinkEndType.receiver then (-1 : ℝ) else 1) •
        (transitRateFactor s0 s1 s0.vel • unitLineOfSight s0 s1)) ∧
    (s.update [s0, s1] times fixedLinkEnd).getScalingFactor lt LinkEndType.transmitter =
      Except.ok ((if lt = LinkEndType.receiver then (-1 : ℝ) else 1) •
        (transitRateFactor s0 s1 s1.vel • unitLineOfSight s0 s1)) := by
  refine ⟨OneWayRangeScaling.update_receiverFactor s s0 s1 times fixedLinkEnd,
    OneWayRangeScaling.update_transmitterFactor s s0 s1 times fixedLinkEnd, ?_, ?_⟩
  · rw [OneWayRangeScaling.getScalingFactor_receiverRef,
      OneWayRangeScaling.update_receiverFactor]
  · rw [OneWayRangeScaling.getScalingFactor_transmitterRef,
      OneWayRangeScaling.update_transmitterFactor]

/-- Claim C3: after any call to `OneWayRangeScaling::update`, for either fixed-time
choice X ∈ {transmitter, receiver}, `getScalingFactor(receiver, X)` equals
`−getScalingFactor(transmitter, X)`. -/
theorem oneWayRangeScaling_getScalingFactor_antisymmetric (s : OneWayRangeScaling)
    (linkEndStates : List Vector6) (times : List ℝ) (fixedLinkEnd : LinkEndType) :
    (s.update linkEndStates times fixedLinkEnd).getScalingFactor
        LinkEndType.receiver LinkEndType.transmitter =
      ((s.update linkEndStates times fixedLinkEnd).getScalingFactor
        LinkEndType.transmitter LinkEndType.transmitter).map (fun v => -v) ∧
    (s.update linkEndStates times fixedLinkEnd).getScalingFactor
        LinkEndType.receiver LinkEndType.receiver =
      ((s.update linkEndStates times fixedLinkEnd).getScalingFactor
        LinkEndType.transmitter LinkEndType.receiver).map (fun v => -v) := by
  constructor <;>
    simp [OneWayRangeScaling.getScalingFactor_transmitterRef,
      OneWayRangeScaling.getScalingFactor_receiverRef, Except.map,
      Vector3.neg_one_smul_eq, Vector3.one_smul_eq]

/-- Claim C9: `getScalingFactor` and `getLightTimePartialScalingFactor` raise an
error exactly when the reference-time link end is neither transmitter nor
receiver; for a valid reference end they return a value without error. -/
theorem oneWayRangeScaling_reference_end_error_iff (s : OneWayRangeScaling)
    (lt ref : LinkEndType) :
    ((∃ e, s.getScalingFactor lt ref = Except.error e) ↔
      ¬(ref = LinkEndType.transmitter ∨ ref = LinkEndType.receiver)) ∧
    ((∃ v, s.getScalingFactor lt ref = Except.ok v) ↔
      (ref = LinkEndType.transmitter ∨ ref = LinkEndType.receiver)) ∧
    ((∃ e, s.getLightTimePartialScalingFactor ref = Except.error e) ↔
      ¬(ref = LinkEndType.transmitter ∨ ref = LinkEndType.receiver)) ∧
    ((∃ c, s.getLightTimePartialScalingFactor ref = Except.ok c) ↔
      (ref = LinkEndType.transmitter ∨ ref = LinkEndType.receiver)) := by
  cases ref <;> cases lt <;>
    simp [OneWayRangeScaling.getScalingFactor,
      OneWayRangeScaling.getLightTimePartialScalingFactor, pure, Except.pure,
      Bind.bind, Except.bind, throw, throwThe, MonadExceptOf.throw]

/-- Claim C10: `getScalingFactor` does not validate the differentiated link-end
argument: for a valid reference end it returns, without error, the selected
factor negated exactly when the differentiated end is the receiver — for every
other differentiated role (retransmitter included) the factor is returned
unnegated. -/
theorem oneWayRangeScaling_getScalingFactor_no_differentiated_validation
    (s : OneWayRangeScaling) (lt : LinkEndType) :
    s.getScalingFactor lt LinkEndType.transmitter =
      Except.ok ((if lt = LinkEndType.receiver then (-1 : ℝ) else 1) •
        s.transmitterReferenceScalingFactor_) ∧
    s.getScalingFactor lt LinkEndType.receiver =
      Except.ok ((if lt = LinkEndType.receiver then (-1 : ℝ) else 1) •
        s.receiverReferenceScalingFactor_) :=
  ⟨OneWayRangeScaling.getScalingFactor_transmitterRef s lt,
   OneWayRangeScaling.getScalingFactor_receiverRef s lt⟩

/-- Claim C2, witness: the correction-entry scaling theorem instantiated on the
concrete partial object, with the transmitter as fixed-time link end. -/
theorem oneWayRangePartial_calculatePartial_correction_scaling_witness :
    ∃ entries scal,
      exampleOneWayRangePartial.calculatePartial [] [] LinkEndType.transmitter =
        Except.ok entries ∧
      exampleOneWayRangePartial.oneWayRangeScaler_.getLightTimePartialScalingFactor
        LinkEndType.transmitter = Except.ok scal ∧
      entries.length = exampleOneWayRangePartial.positionPartialList_.length +
        exampleOneWayRangePartial.lighTimeCorrectionPartialsFunctions_.length ∧
      ∀ i (hi : i < exampleOneWayRangePartial.lighTimeCorrectionPartialsFunctions_.length),
        entries.getD (exampleOneWayRangePartial.positionPartialList_.length + i) default =
          (((-1 : ℝ) * SPEED_OF_LIGHT * scal) •
            (exampleOneWayRangePartial.lighTimeCorrectionPartialsFunctions_.get
              ⟨i, hi⟩ [] []).1,
           (exampleOneWayRangePartial.lighTimeCorrectionPartialsFunctions_.get
              ⟨i, hi⟩ [] []).2) :=
  oneWayRangePartial_calculatePartial_correction_scaling
    exampleOneWayRangePartial [] [] LinkEndType.transmitter (Or.inl rfl)

/-- Claim C4: in `computeIdealObservationsWithLinkEndData`, a receiver anchor yields
reception time = input time and transmission time = input time − computed
light time; a transmitter anchor yields transmission time = input time and
reception time = input time + computed light time. -/
theorem oneWayRange_linkEndTimes_follow_anchor (m : OneWayRangeObservationModel)
    (time : ℝ) (ts : List ℝ) (ss : List Vector6) :
    (∃ obs ssOut,
      m.computeIdealObservationsWithLinkEndData time LinkEndType.receiver ts ss =
        Except.ok (obs,
          ts ++ [time -
            (m.lightTimeCalculator_.calculateLightTimeWithLinkEndsStates time true).1,
            time],
          ssOut)) ∧
    (∃ obs ssOut,
      m.computeIdealObservationsWithLinkEndData time LinkEndType.transmitter ts ss =
        Except.ok (obs,
          ts ++ [time, time +
            (m.lightTimeCalculator_.calculateLightTimeWithLinkEndsStates time false).1],
          ssOut)) :=
  ⟨⟨_, _, rfl⟩, ⟨_, _, rfl⟩⟩

/-- Claim C5: for both valid anchors, the observable returned by
`computeIdealObservations` and by `computeIdealObservationsWithLinkEndData`
equals the light time computed by the `LightTimeCalculator` multiplied by the
speed of light. -/
theorem oneWayRange_observable_is_lightTime_times_c
    (m : OneWayRangeObservationModel) (time : ℝ) (ts : List ℝ) (ss : List Vector6) :
    m.computeIdealObservations time LinkEndType.receiver =
      Except.ok (m.lightTimeCalculator_.calculateLightTime time true *
        SPEED_OF_LIGHT) ∧
    m.computeIdealObservations time LinkEndType.transmitter =
      Except.ok (m.lightTimeCalculator_.calculateLightTime time false *
        SPEED_OF_LIGHT) ∧
    (m.computeIdealObservationsWithLinkEndData time LinkEndType.receiver ts ss).map
        (fun r => r.1) =
      Except.ok
        ((m.lightTimeCalculator_.calculateLightTimeWithLinkEndsStates time true).1 *
          SPEED_OF_LIGHT) ∧
    (m.computeIdealObservationsWithLinkEndData time LinkEndType.transmitter ts ss).map
        (fun r => r.1) =
      Except.ok
        ((m.lightTimeCalculator_.calculateLightTimeWithLinkEndsStates time false).1 *
          SPEED_OF_LIGHT) :=
  ⟨rfl, rfl, rfl, rfl⟩

/-- Claim C6: assuming the two light-time calculator functions agree on the light
time, `computeIdealObservations` and `computeIdealObservationsWithLinkEndData`
return the same observable value for every input time and anchor (and neither
returns a value on an invalid anchor). -/
theorem oneWayRange_observation_functions_agree (m : OneWayRangeObservationModel)
    (time : ℝ) (anchor : LinkEndType) (ts : List ℝ) (ss : List Vector6)
    (h : ∀ u b, (m.lightTimeCalculator_.calculateLightTimeWithLinkEndsStates u b).1 =
      m.lightTimeCalculator_.calculateLightTime u b) :
    (m.computeIdealObservations time anchor).toOption =
      (m.computeIdealObservationsWithLinkEndData time anchor ts ss).toOption.map
        (fun r => r.1) := by
  cases anchor <;>
    simp [OneWayRangeObservationModel.computeIdealObservations,
      OneWayRangeObservationModel.computeIdealObservationsWithLinkEndData,
      h, Except.toOption, throw, throwThe, MonadExceptOf.throw]

/-- Claim C6, witness: the agreement theorem instantiated on the concrete model,
whose calculator functions agree definitionally. -/
theorem oneWayRange_observation_functions_agree_witness :
    (exampleObservationModel.computeIdealObservations 0 LinkEndType.receiver).toOption =
      (exampleObservationModel.computeIdealObservationsWithLinkEndData 0
        LinkEndType.receiver [] []).toOption.map (fun r => r.1) :=
  oneWayRange_observation_functions_agree exampleObservationModel 0
    LinkEndType.receiver [] [] (fun _ _ => rfl)

/-- Claim C7: `computeIdealObservationsWithLinkEndData` returns times and states in
signal-flow order: the transmission time is appended before the reception
time, and the transmitter state before the receiver state, for both valid
anchors. -/
theorem oneWayRange_signal_flow_order (m : OneWayRangeObservationModel)
    (time : ℝ) (ts : List ℝ) (ss : List Vector6) :
    m.computeIdealObservationsWithLinkEndData time LinkEndType.receiver ts ss =
      Except.ok
        ((m.lightTimeCalculator_.calculateLightTimeWithLinkEndsStates time true).1 *
           SPEED_OF_LIGHT,
         ts ++ [time -
           (m.lightTimeCalculator_.calculateLightTimeWithLinkEndsStates time true).1,
           time],
         ss ++ [(m.lightTimeCalculator_.calculateLightTimeWithLinkEndsStates time true).2.2,
           (m.lightTimeCalculator_.calculateLightTimeWithLinkEndsStates time true).2.1]) ∧
    m.computeIdealObservationsWithLinkEndData time LinkEndType.transmitter ts ss =
      Except.ok
        ((m.lightTimeCalculator_.calculateLightTimeWithLinkEndsStates time false).1 *
           SPEED_OF_LIGHT,
         ts ++ [time, time +
           (m.lightTimeCalculator_.calculateLightTimeWithLinkEndsStates time false).1],
         ss ++ [(m.lightTimeCalculator_.calculateLightTimeWithLinkEndsStates time false).2.2,
           (m.lightTimeCalculator_.calculateLightTimeWithLinkEndsStates time false).2.1]) :=
  ⟨rfl, rfl⟩

/-- Claim C8: calling either observation function with an anchor link-end role that
is neither transmitter nor receiver raises an error and produces no observable
value. -/
theorem oneWayRange_invalid_anchor_errors (m : OneWayRangeObservationModel)
    (time : ℝ) (ts : List ℝ) (ss : List Vector6) (anchor : LinkEndType)
    (h1 : anchor ≠ LinkEndType.transmitter) (h2 : anchor ≠ LinkEndType.receiver) :
    (∃ e, m.computeIdealObservations time anchor = Except.error e) ∧
    (∃ e, m.computeIdealObservationsWithLinkEndData time anchor ts ss =
      Except.error e) := by
  cases anchor <;>
    simp_all [OneWayRangeObservationModel.computeIdealObservations,
      OneWayRangeObservationModel.computeIdealObservationsWithLinkEndData,
      throw, throwThe, MonadExceptOf.throw]

/-- Claim C8, witness: the invalid-anchor theorem instantiated on the concrete model
with the retransmitter role. -/
theorem oneWayRange_invalid_anchor_errors_witness :
    (∃ e, exampleObservationModel.computeIdealObservations 0
      LinkEndType.retransmitter = Except.error e) ∧
    (∃ e, exampleObservationModel.computeIdealObservationsWithLinkEndData 0
      LinkEndType.retransmitter [] [] = Except.error e) :=
  oneWayRange_invalid_anchor_errors exampleObservationModel 0 [] []
    LinkEndType.retransmitter (by decide) (by decide)

end

end tudat
